import Mathlib

/-!
# Verification of the rustty interactive pseudo-shell

Shallow embedding of `src/main.rs`: the command classifier implicit in
`App::read`, the captured runner `App::run_cmd`, the fullscreen runner
`App::run_fullscreen_cmd` (modelled as the sequence of terminal-control
attempts it performs, each external primitive's success decided by an
oracle), the key handler `App::read`, and the prompt helper
`App::current_dir`.

External effects (the OS file system, the `sh` child process, the
crossterm terminal primitives, `dirs::home_dir`) are supplied as oracle
values/functions; the embedded code is the exact control flow of the
Rust source over those oracles.  `String::from_utf8_lossy` is standard
library behaviour, so child stdout/stderr are modelled as the already
lossily-decoded strings.
-/

namespace Rustty

/-- Rust's `str::trim` (drop whitespace from both ends), computed
structurally on the underlying character list.  (Rust trims Unicode
`White_Space`; `Char.isWhitespace` covers the ASCII subset, which is all
the claims exercise.) -/
def strTrim (s : String) : String :=
  ⟨((s.data.dropWhile Char.isWhitespace).reverse.dropWhile Char.isWhitespace).reverse⟩

/-- Rust's `str::starts_with(p)`: `p` is a prefix of `s` (byte prefix and
character prefix coincide on valid UTF-8). -/
def strStartsWith (s p : String) : Bool :=
  p.data.isPrefixOf s.data

/-- Rust's byte slice `s[n..]` for an ASCII prefix of length `n`: drop the
first `n` characters. -/
def strDrop (s : String) (n : Nat) : String :=
  ⟨s.data.drop n⟩

/-- Effect of Rust's `String::pop` on the buffer: remove the last
character; on an empty string this is a no-op. -/
def strPop (s : String) : String :=
  ⟨s.data.dropLast⟩

/-- The `ExecutionPlan` tagged variant of the specification's data model
(section 3): `{Empty, ClearOutput, ChangeDirectory, RunFullscreen,
RunCaptured}`. -/
inductive ExecutionPlan where
  | Empty : ExecutionPlan
  | ClearOutput : ExecutionPlan
  | ChangeDirectory : String → ExecutionPlan
  | RunFullscreen : String → ExecutionPlan
  | RunCaptured : String → ExecutionPlan
deriving DecidableEq, Repr

/-- The classification step of `App::read` (main.rs lines 98-113), as a pure
function of the trimmed command line and the configured fullscreen command
set: `cd `-prefix first, then the exact string `clear`, then exact
whole-string membership in the set, and everything else captured.  The Rust
byte slice `cmd[3..]` drops the three ASCII bytes of the matched prefix
`"cd "`, hence `String.drop 3`.  Note the source has no branch producing
`Empty`. -/
def classify (fullscreen_commands : List String) (cmd : String) : ExecutionPlan :=
  if strStartsWith cmd "cd " then .ChangeDirectory (strTrim (strDrop cmd 3))
  else if cmd = "clear" then .ClearOutput
  else if cmd ∈ fullscreen_commands then .RunFullscreen cmd
  else .RunCaptured cmd

/-- The `App` struct of main.rs: input line, output pane text, and the
fullscreen command set (a `HashSet<&str>` in the source; modelled as the
list of its elements, membership being the only operation used). -/
structure App where
  input : String
  output : String
  fullscreen_commands : List String
deriving DecidableEq, Repr

/-- `App::new`: empty buffers, fullscreen set `{htop, vim, less, top}`. -/
def App.new : App :=
  { input := "", output := "", fullscreen_commands := ["htop", "vim", "less", "top"] }

/-- Result of `Command::output()` for a child that was spawned: its exit
status success flag and its captured stdout/stderr after lossy UTF-8
decoding. -/
structure SpawnOutput where
  success : Bool
  stdout : String
  stderr : String
deriving DecidableEq, Repr

/-- `App::run_cmd` (main.rs lines 52-66): run the trimmed input through
`sh -c` with piped output.  On spawn success with exit success the output
buffer becomes the decoded stdout, on exit failure the decoded stderr, and
on a spawn error a synthesized not-found message naming the command. -/
def runCmd (app : App) (spawn : Except Unit SpawnOutput) : App :=
  let cmd := strTrim app.input
  match spawn with
  | .ok value =>
      if value.success then { app with output := value.stdout }
      else { app with output := value.stderr }
  | .error _ => { app with output := "Error: Command \x27" ++ cmd ++ "\x27 not found" }

/-- One attempted terminal-control or child-process operation performed by
`App::run_fullscreen_cmd` (main.rs lines 69-87) or by the setup in `main`
(lines 152-158), recorded with whether the underlying primitive succeeded. -/
inductive FsStep where
  | attemptDisableRaw : Bool → FsStep
  | attemptLeaveAlt : Bool → FsStep
  | attemptSpawnInherited : String → Bool → FsStep
  | waitChild : FsStep
  | attemptEnableRaw : Bool → FsStep
  | attemptEnterAlt : Bool → FsStep
deriving DecidableEq, Repr

/-- Oracle deciding whether each external primitive used by
`run_fullscreen_cmd` succeeds: `disable_raw_mode`, the
`LeaveAlternateScreen` execute, the inherited-stdio `spawn`,
`enable_raw_mode`, and the `EnterAlternateScreen` execute. -/
structure TermOracle where
  disableRawOk : Bool
  leaveAltOk : Bool
  spawnOk : Bool
  enableRawOk : Bool
  enterAltOk : Bool
deriving DecidableEq, Repr

/-- `App::run_fullscreen_cmd` (main.rs lines 69-87) as the list of attempts
it performs plus `some panicMessage` when an `.expect(...)` fires.  Every
fallible call in the source is wrapped in `.expect`, so the first failing
primitive panics at once: nothing after it in the source runs (in
particular a failed spawn is followed by no `enable_raw_mode` /
`EnterAlternateScreen`). -/
def run_fullscreen_cmd (cmd : String) (o : TermOracle) : List FsStep × Option String :=
  if o.disableRawOk = false then
    ([.attemptDisableRaw false], some "Failed to disable raw mode")
  else if o.leaveAltOk = false then
    ([.attemptDisableRaw true, .attemptLeaveAlt false],
     some "Failed to leave alternate screen")
  else if o.spawnOk = false then
    ([.attemptDisableRaw true, .attemptLeaveAlt true, .attemptSpawnInherited cmd false],
     some "Failed to spawn command")
  else if o.enableRawOk = false then
    ([.attemptDisableRaw true, .attemptLeaveAlt true, .attemptSpawnInherited cmd true,
      .waitChild, .attemptEnableRaw false],
     some "Failed to enable raw mode")
  else if o.enterAltOk = false then
    ([.attemptDisableRaw true, .attemptLeaveAlt true, .attemptSpawnInherited cmd true,
      .waitChild, .attemptEnableRaw true, .attemptEnterAlt false],
     some "Failed to enter alternate screen")
  else
    ([.attemptDisableRaw true, .attemptLeaveAlt true, .attemptSpawnInherited cmd true,
      .waitChild, .attemptEnableRaw true, .attemptEnterAlt true],
     none)

/-- How `main` aborts when terminal setup fails: a panic from `.expect`, or
an `Err` propagated by `?` (non-zero process exit, but cleanup code after
the main loop is skipped). -/
inductive Abort where
  | panicMsg : String → Abort
  | errExit : Abort
deriving DecidableEq, Repr

/-- The terminal setup in `main` (main.rs lines 152-158):
`enable_raw_mode().expect(..)` then
`execute!(stdout, EnterAlternateScreen, EnableMouseCapture)?` (the execute
is one fallible operation; mouse capture is folded into it). -/
def main_setup (enableRawOk enterAltOk : Bool) : List FsStep × Option Abort :=
  if enableRawOk = false then
    ([.attemptEnableRaw false], some (.panicMsg "Failed to enable raw mode"))
  else if enterAltOk = false then
    ([.attemptEnableRaw true, .attemptEnterAlt false], some .errExit)
  else
    ([.attemptEnableRaw true, .attemptEnterAlt true], none)

/-- Physical terminal state: whether raw input mode and the alternate
screen are currently active.  The spec's `TerminalMode` is `Normal` when
both hold and `Interactive` when neither does. -/
structure TermState where
  rawMode : Bool
  altScreen : Bool
deriving DecidableEq, Repr

/-- `Normal` mode: the app holds raw mode and the alternate screen. -/
def normalTerm : TermState := { rawMode := true, altScreen := true }

/-- `Interactive` mode: both released to a foreground child. -/
def interactiveTerm : TermState := { rawMode := false, altScreen := false }

/-- Effect of one attempted operation on the physical terminal: only a
successful attempt changes the corresponding flag. -/
def applyStep (s : TermState) : FsStep → TermState
  | .attemptDisableRaw true => { s with rawMode := false }
  | .attemptLeaveAlt true => { s with altScreen := false }
  | .attemptEnableRaw true => { s with rawMode := true }
  | .attemptEnterAlt true => { s with altScreen := true }
  | _ => s

/-- Terminal state after a sequence of attempts. -/
def applySteps (s : TermState) (steps : List FsStep) : TermState :=
  steps.foldl applyStep s

/-- Number of child spawn attempts in a step sequence. -/
def countSpawns (steps : List FsStep) : Nat :=
  steps.countP fun s => match s with
    | .attemptSpawnInherited _ _ => true
    | _ => false

/-- The crossterm `KeyCode` variants (the source's `App::read` matches
`Char`, `Backspace` and `Enter` and ignores every other variant via the
`_ => {}` arm).  `endKey` stands for crossterm's `End`. -/
inductive KeyCode where
  | backspace | enter | left | right | up | down
  | home | endKey | pageUp | pageDown | tab | backTab
  | delete | insert | null | esc
  | f : Nat → KeyCode
  | char : Char → KeyCode
deriving DecidableEq, Repr

/-- `true` exactly for the key codes handled only by the catch-all
`_ => {}` arm of `App::read`. -/
def KeyCode.unhandled : KeyCode → Bool
  | .char _ => false
  | .backspace => false
  | .enter => false
  | _ => true

/-- Process-wide state visible to `App::read`: the `App` struct plus the
process working directory (mutated by `env::set_current_dir`, read by the
prompt). -/
structure ProcState where
  app : App
  cwd : String
deriving DecidableEq, Repr

/-- Oracles for the external effects one `App::read` call can perform:
`chdir p` is the outcome of `env::set_current_dir(p)` (error `Display`
text, or the resulting working directory chosen by the OS); `captured` is
the outcome of the piped `Command::output()`; `term` decides the
fullscreen-path primitives. -/
structure EnterOracle where
  chdir : String → Except String String
  captured : Except Unit SpawnOutput
  term : TermOracle

/-- Observable external effects of one `App::read` call: a piped `sh -c`
invocation (`Command::output()`), an `env::set_current_dir` call, or a
terminal/fullscreen step. -/
inductive Effect where
  | spawnCaptured : String → Effect
  | chdirCall : String → Bool → Effect
  | term : FsStep → Effect
deriving DecidableEq, Repr

/-- `App::read` (main.rs lines 90-116) over the oracles: `Char` pushes,
`Backspace` pops (`String.dropRight 1` is Rust's `String::pop` effect on
the buffer), `Enter` dispatches the trimmed line through the
cd/clear/fullscreen/captured chain and then clears the input, and every
other key does nothing.  The result is `Except.error msg` when the
fullscreen path panics (in that case `self.input.clear()` is never
reached). -/
def read (st : ProcState) (key : KeyCode) (o : EnterOracle) :
    Except String (ProcState × List Effect) :=
  match key with
  | .char c =>
      .ok ({ st with app := { st.app with input := st.app.input.push c } }, [])
  | .backspace =>
      .ok ({ st with app := { st.app with input := strPop st.app.input } }, [])
  | .enter =>
      let cmd := strTrim st.app.input
      if strStartsWith cmd "cd " then
        match o.chdir (strTrim (strDrop cmd 3)) with
        | .ok newCwd =>
            .ok ({ st with cwd := newCwd, app := { st.app with input := "" } },
                 [.chdirCall (strTrim (strDrop cmd 3)) true])
        | .error e =>
            .ok ({ st with app :=
                    { st.app with input := "",
                                  output := "Error changing directory: " ++ e } },
                 [.chdirCall (strTrim (strDrop cmd 3)) false])
      else if cmd = "clear" then
        .ok ({ st with app := { st.app with input := "", output := "" } }, [])
      else if cmd ∈ st.app.fullscreen_commands then
        match run_fullscreen_cmd cmd o.term with
        | (_, some msg) => .error msg
        | (steps, none) =>
            .ok ({ st with app := { st.app with input := "" } }, steps.map Effect.term)
      else
        .ok ({ st with app := { runCmd st.app o.captured with input := "" } },
             [.spawnCaptured cmd])
  | _ => .ok (st, [])

/-- Rendered path for the prompt: an absolute path (list of components,
`[]` is the root `/`) or a `~`-relative path. -/
inductive DisplayPath where
  | absPath : List String → DisplayPath
  | homeRelPath : List String → DisplayPath
deriving DecidableEq, Repr

/-- `App::current_dir` (main.rs lines 41-49) over path-component lists:
`env::current_dir()` (or the fallback `/` when it errors), then if
`home_dir()` is `Some home` and the current directory starts with `home`,
the home prefix is replaced by `~`; otherwise the directory is returned
as-is. -/
def current_dir (cwdResult : Option (List String)) (home : Option (List String)) :
    DisplayPath :=
  let current := cwdResult.getD []
  match home with
  | some h =>
      if h.isPrefixOf current then .homeRelPath (current.drop h.length)
      else .absPath current
  | none => .absPath current

/-- A default oracle used by concrete witnesses: `chdir` succeeds with the
requested path, the captured spawn fails, all terminal primitives succeed. -/
def oracleDefault : EnterOracle :=
  { chdir := fun p => .ok p,
    captured := .error (),
    term := ⟨true, true, true, true, true⟩ }

/-- Concrete state for C1: empty input buffer, non-empty output pane. -/
def stEmpty : ProcState :=
  { app := { input := "", output := "previous output",
             fullscreen_commands := App.new.fullscreen_commands },
    cwd := "/" }

/-- Concrete oracle for C1: `sh -c ""` spawns, exits successfully and
writes nothing to stdout (what the real shell does on an empty command). -/
def oracleEmpty : EnterOracle :=
  { chdir := fun p => .ok p,
    captured := .ok { success := true, stdout := "", stderr := "boom" },
    term := ⟨true, true, true, true, true⟩ }

/-- Concrete state for C7: input buffer `"clear"`, non-empty output. -/
def stClear : ProcState :=
  { app := { input := "clear", output := "previous output",
             fullscreen_commands := App.new.fullscreen_commands },
    cwd := "/" }

/-- Concrete state for C6: input buffer `"cd /tmp"`. -/
def stCd : ProcState :=
  { app := { input := "cd /tmp", output := "previous output",
             fullscreen_commands := App.new.fullscreen_commands },
    cwd := "/home/u" }

/-- C4: `App::run_cmd` routes the child's streams by exit status — exit
success puts the decoded stdout in the output buffer, exit failure the
decoded stderr, and a spawn error a synthesized not-found message naming
the (trimmed) command. -/
theorem runCmd_output_routing (app : App) :
    (∀ v : SpawnOutput, v.success = true → (runCmd app (.ok v)).output = v.stdout) ∧
    (∀ v : SpawnOutput, v.success = false → (runCmd app (.ok v)).output = v.stderr) ∧
    (runCmd app (.error ())).output =
      "Error: Command \x27" ++ strTrim app.input ++ "\x27 not found" := by
  refine ⟨fun v hv => ?_, fun v hv => ?_, rfl⟩ <;> simp [runCmd, hv]

/-- Witness for C4 at a concrete input: a successful `ls` writing
`"a.txt\n"` to stdout makes the output buffer exactly `"a.txt\n"`. -/
theorem runCmd_output_routing_witness :
    (SpawnOutput.mk true "a.txt\n" "oops").success = true ∧
    (runCmd App.new (.ok (SpawnOutput.mk true "a.txt\n" "oops"))).output = "a.txt\n" :=
  ⟨rfl, (runCmd_output_routing App.new).1 (SpawnOutput.mk true "a.txt\n" "oops") rfl⟩

/-- C5: classification as `RunFullscreen` is exact whole-string membership
in the fullscreen set: every member of the configured set classifies as
`RunFullscreen`, only members do, and `"vim file.txt"` (member name plus
arguments) classifies as `RunCaptured`. -/
theorem classify_fullscreen_exact :
    (∀ c, c ∈ App.new.fullscreen_commands →
      classify App.new.fullscreen_commands c = .RunFullscreen c) ∧
    (∀ c p, classify App.new.fullscreen_commands c = .RunFullscreen p →
      c ∈ App.new.fullscreen_commands ∧ p = c) ∧
    classify App.new.fullscreen_commands "vim file.txt" =
      .RunCaptured "vim file.txt" := by
  refine ⟨?_, ?_, by decide⟩
  · intro c hc
    have hcases : c = "htop" ∨ c = "vim" ∨ c = "less" ∨ c = "top" := by
      simpa [App.new] using hc
    rcases hcases with rfl | rfl | rfl | rfl <;> decide
  · intro c p h
    unfold classify at h
    by_cases h1 : strStartsWith c "cd " = true
    · rw [if_pos h1] at h; cases h
    · rw [if_neg h1] at h
      by_cases h2 : c = "clear"
      · rw [if_pos h2] at h; cases h
      · rw [if_neg h2] at h
        by_cases h3 : c ∈ App.new.fullscreen_commands
        · rw [if_pos h3] at h
          cases h
          exact ⟨h3, rfl⟩
        · rw [if_neg h3] at h; cases h

/-- Witness for C5 at the concrete member `"vim"`. -/
theorem classify_fullscreen_exact_witness :
    "vim" ∈ App.new.fullscreen_commands ∧
    classify App.new.fullscreen_commands "vim" = .RunFullscreen "vim" :=
  ⟨by decide, classify_fullscreen_exact.1 "vim" (by decide)⟩

/-- C2 (divergence at the failing input, plus the success-path bracket):
when the inherited-stdio spawn fails, `run_fullscreen_cmd` panics after the
acquire with no restore attempt, leaving the terminal in Interactive mode —
the restore is NOT unconditional; when the spawn succeeds, the bracket is
symmetric (terminal returns to Normal) and contains exactly one spawn. -/
theorem fullscreen_spawn_failure_breaks_bracket :
    run_fullscreen_cmd "vim" ⟨true, true, false, true, true⟩ =
      ([.attemptDisableRaw true, .attemptLeaveAlt true,
        .attemptSpawnInherited "vim" false], some "Failed to spawn command") ∧
    applySteps normalTerm (run_fullscreen_cmd "vim" ⟨true, true, false, true, true⟩).1 =
      interactiveTerm ∧
    run_fullscreen_cmd "vim" ⟨true, true, true, true, true⟩ =
      ([.attemptDisableRaw true, .attemptLeaveAlt true,
        .attemptSpawnInherited "vim" true, .waitChild,
        .attemptEnableRaw true, .attemptEnterAlt true], none) ∧
    applySteps normalTerm (run_fullscreen_cmd "vim" ⟨true, true, true, true, true⟩).1 =
      normalTerm ∧
    countSpawns (run_fullscreen_cmd "vim" ⟨true, true, true, true, true⟩).1 = 1 := by
  decide

/-- C3 (divergence at the failing inputs): a failing terminal-control
primitive makes the code panic (or return `Err` from `main`) immediately,
with no inverse/cleanup attempt — the step lists end at the failed attempt,
leaving raw mode and the alternate screen in a half-transitioned state. -/
theorem terminal_error_aborts_without_cleanup :
    run_fullscreen_cmd "vim" ⟨true, false, true, true, true⟩ =
      ([.attemptDisableRaw true, .attemptLeaveAlt false],
       some "Failed to leave alternate screen") ∧
    applySteps normalTerm (run_fullscreen_cmd "vim" ⟨true, false, true, true, true⟩).1 =
      { rawMode := false, altScreen := true } ∧
    run_fullscreen_cmd "vim" ⟨true, true, true, false, true⟩ =
      ([.attemptDisableRaw true, .attemptLeaveAlt true,
        .attemptSpawnInherited "vim" true, .waitChild, .attemptEnableRaw false],
       some "Failed to enable raw mode") ∧
    applySteps normalTerm (run_fullscreen_cmd "vim" ⟨true, true, true, false, true⟩).1 =
      interactiveTerm ∧
    main_setup true false =
      ([.attemptEnableRaw true, .attemptEnterAlt false], some .errExit) ∧
    applySteps ⟨false, false⟩ (main_setup true false).1 =
      { rawMode := true, altScreen := false } := by
  decide

/-- Counterexample for C10: when the current directory cannot be read the
fallback `/` still goes through the home substitution, so with a home
directory of `/` (empty component list) the function returns `~`
(`homeRelPath []`), not `/` (`absPath []`). -/
theorem current_dir_unreadable_not_always_root :
    current_dir none (some []) = .homeRelPath [] ∧
    DisplayPath.homeRelPath [] ≠ DisplayPath.absPath [] := by
  decide

/-- C10 amended: under home the prefix is replaced by `~`, otherwise the
directory is returned as-is, and an unreadable current directory behaves
exactly as if the current directory were `/` (the home substitution still
applies to the fallback). -/
theorem current_dir_home_substitution :
    (∀ cur h, h.isPrefixOf cur = true →
      current_dir (some cur) (some h) = .homeRelPath (cur.drop h.length)) ∧
    (∀ cur h, h.isPrefixOf cur = false →
      current_dir (some cur) (some h) = .absPath cur) ∧
    (∀ cur, current_dir (some cur) none = .absPath cur) ∧
    (∀ h, current_dir none h = current_dir (some []) h) := by
  refine ⟨fun cur h hh => ?_, fun cur h hh => ?_, fun cur => rfl, fun h => ?_⟩
  · simp [current_dir, hh]
  · simp [current_dir, hh]
  · cases h <;> rfl

/-- Witness for C10's amended theorem at a concrete directory under home. -/
theorem current_dir_home_substitution_witness :
    (["home", "u"].isPrefixOf ["home", "u", "proj"] = true) ∧
    current_dir (some ["home", "u", "proj"]) (some ["home", "u"]) =
      .homeRelPath ["proj"] :=
  ⟨by decide,
   current_dir_home_substitution.1 ["home", "u", "proj"] ["home", "u"] (by decide)⟩

theorem strPop_empty : strPop "" = "" := by decide

/-- Counterexample for C1: the dispatch chain has no empty-string case, so
classifying the empty trimmed input yields `RunCaptured ""`, not `Empty`,
and pressing Enter with an empty input buffer spawns `sh -c ""` and
overwrites the non-empty output buffer with the captured (empty) stdout. -/
theorem empty_input_not_inert :
    classify App.new.fullscreen_commands "" = .RunCaptured "" ∧
    classify App.new.fullscreen_commands "" ≠ .Empty ∧
    read stEmpty .enter oracleEmpty =
      .ok ({ stEmpty with app := { stEmpty.app with output := "" } },
           [.spawnCaptured ""]) ∧
    stEmpty.app.output = "previous output" := by
  refine ⟨by decide, by decide, ?_, rfl⟩
  rfl

/-- C1 amended: with the program's fullscreen set, an empty trimmed input
falls through to the captured path: `App::read` on Enter runs
`App::run_cmd` on the empty command (one piped `sh -c` spawn, output buffer
overwritten with the spawn's result) and clears the input. -/
theorem empty_input_runs_captured (st : ProcState) (o : EnterOracle)
    (h : strTrim st.app.input = "")
    (hfc : st.app.fullscreen_commands = App.new.fullscreen_commands) :
    read st .enter o =
      .ok ({ st with app := { runCmd st.app o.captured with input := "" } },
           [.spawnCaptured ""]) := by
  simp only [read, h, hfc]
  rw [if_neg (by decide), if_neg (by decide), if_neg (by decide)]

/-- Witness for C1's amended theorem at the concrete empty-input state. -/
theorem empty_input_runs_captured_witness :
    strTrim stEmpty.app.input = "" ∧
    read stEmpty .enter oracleEmpty =
      .ok ({ stEmpty with app :=
              { runCmd stEmpty.app oracleEmpty.captured with input := "" } },
           [.spawnCaptured ""]) :=
  ⟨by decide, empty_input_runs_captured stEmpty oracleEmpty (by decide) (by decide)⟩

/-- C6: on an Enter whose trimmed input starts with `cd `, the directory
change goes through `env::set_current_dir` in the current process (the only
effect is the `chdirCall`, no shell spawn): on success the working
directory becomes the OS result and the output buffer is untouched; on
failure the working directory is unchanged and the output buffer becomes
the non-empty formatted error message. -/
theorem cd_branch_correct (st : ProcState) (o : EnterOracle)
    (h : strStartsWith (strTrim st.app.input) "cd " = true) :
    (∀ newCwd, o.chdir (strTrim (strDrop (strTrim st.app.input) 3)) = .ok newCwd →
      read st .enter o =
        .ok ({ st with cwd := newCwd, app := { st.app with input := "" } },
             [.chdirCall (strTrim (strDrop (strTrim st.app.input) 3)) true])) ∧
    (∀ e, o.chdir (strTrim (strDrop (strTrim st.app.input) 3)) = .error e →
      read st .enter o =
        .ok ({ st with app := { st.app with input := "", output := "Error changing directory: " ++ e } },
             [.chdirCall (strTrim (strDrop (strTrim st.app.input) 3)) false]) ∧
      "Error changing directory: " ++ e ≠ "") := by
  constructor
  · intro newCwd hc
    simp only [read]
    rw [if_pos h, hc]
  · intro e hc
    refine ⟨?_, ?_⟩
    · simp only [read]
      rw [if_pos h, hc]
    · intro heq
      have hlen := congrArg String.length heq
      rw [String.length_append] at hlen
      have h26 : ("Error changing directory: " : String).length = 26 := by decide
      have h0 : ("" : String).length = 0 := by decide
      rw [h26, h0] at hlen
      omega

/-- Witness for C6 at the concrete input `"cd /tmp"` with a succeeding
`set_current_dir`. -/
theorem cd_branch_correct_witness :
    strStartsWith (strTrim stCd.app.input) "cd " = true ∧
    read stCd .enter oracleDefault =
      .ok ({ stCd with cwd := "/tmp", app := { stCd.app with input := "" } },
           [.chdirCall "/tmp" true]) :=
  ⟨by decide, (cd_branch_correct stCd oracleDefault (by decide)).1 "/tmp" rfl⟩

/-- C7: whenever an Enter dispatch completes (no fullscreen panic), the
input buffer ends empty whatever branch ran; and when the trimmed input is
exactly `clear`, the output buffer is reset to empty with no external
effect (no subprocess). -/
theorem enter_clears_input_and_clear_builtin (st : ProcState) (o : EnterOracle) :
    (∀ st2 effs, read st .enter o = .ok (st2, effs) → st2.app.input = "") ∧
    (strTrim st.app.input = "clear" →
      read st .enter o =
        .ok ({ st with app := { st.app with input := "", output := "" } }, [])) := by
  constructor
  · intro st2 effs h
    simp only [read] at h
    by_cases h1 : strStartsWith (strTrim st.app.input) "cd " = true
    · rw [if_pos h1] at h
      cases hc : o.chdir (strTrim (strDrop (strTrim st.app.input) 3)) with
      | ok newCwd =>
          rw [hc] at h
          injection h with h2
          rw [Prod.mk.injEq] at h2
          rw [← h2.1]
      | error e =>
          rw [hc] at h
          injection h with h2
          rw [Prod.mk.injEq] at h2
          rw [← h2.1]
    · rw [if_neg h1] at h
      by_cases h2 : strTrim st.app.input = "clear"
      · rw [if_pos h2] at h
        injection h with h3
        rw [Prod.mk.injEq] at h3
        rw [← h3.1]
      · rw [if_neg h2] at h
        by_cases h3 : strTrim st.app.input ∈ st.app.fullscreen_commands
        · rw [if_pos h3] at h
          rcases hfs : run_fullscreen_cmd (strTrim st.app.input) o.term with ⟨steps, msg⟩
          rw [hfs] at h
          cases msg with
          | some m => cases h
          | none =>
              injection h with h4
              rw [Prod.mk.injEq] at h4
              rw [← h4.1]
        · rw [if_neg h3] at h
          injection h with h4
          rw [Prod.mk.injEq] at h4
          rw [← h4.1]
  · intro hclear
    simp only [read, hclear]
    simp
    exact fun hx => absurd hx (by decide)

/-- Witness for C7 at the concrete `"clear"` state with non-empty output. -/
theorem enter_clears_input_and_clear_builtin_witness :
    strTrim stClear.app.input = "clear" ∧
    read stClear .enter oracleDefault =
      .ok ({ stClear with app := { stClear.app with input := "", output := "" } }, []) :=
  ⟨by decide,
   (enter_clears_input_and_clear_builtin stClear oracleDefault).2 (by decide)⟩

/-- C8: Backspace with an empty input buffer is a no-op: `String::pop` on
the empty string leaves it empty (no panic, modelled total), and the whole
process state and effect list are unchanged/empty. -/
theorem backspace_empty_noop (st : ProcState) (o : EnterOracle)
    (h : st.app.input = "") :
    read st .backspace o = .ok (st, []) := by
  obtain ⟨⟨i, out, fc⟩, cwd⟩ := st
  have hi : i = "" := h
  subst hi
  simp [read, strPop_empty]

/-- Witness for C8 at the concrete freshly-created app. -/
theorem backspace_empty_noop_witness :
    (ProcState.mk App.new "/").app.input = "" ∧
    read (ProcState.mk App.new "/") .backspace oracleDefault =
      .ok (ProcState.mk App.new "/", []) :=
  ⟨rfl, backspace_empty_noop (ProcState.mk App.new "/") oracleDefault rfl⟩

/-- C9: any key code other than `Char`, `Backspace` and `Enter` hits the
`_ => {}` arm of `App::read`: the whole state (input, output, fullscreen
set, working directory) is returned unchanged and no effect occurs. -/
theorem unhandled_key_noop (st : ProcState) (o : EnterOracle) (k : KeyCode)
    (h : k.unhandled = true) :
    read st k o = .ok (st, []) := by
  cases k <;> first | rfl | simp [KeyCode.unhandled] at h

/-- Witness for C9 at the concrete key `Esc`. -/
theorem unhandled_key_noop_witness :
    KeyCode.unhandled .esc = true ∧
    read stClear .esc oracleDefault = .ok (stClear, []) :=
  ⟨rfl, unhandled_key_noop stClear oracleDefault .esc rfl⟩

end Rustty
